import Mathlib

/-!
Verification of the 2D physics and arena simulation engine of the
CSU-Lunabotics 2D ML concept repository.

The development shallowly embeds the Python sources over the reals:

* `PyPhys` — `python_training/env/physics.py` (Vec2, RigidBody, Circle,
  PhysicsEngine wall/obstacle resolution);
* `Shapes` — `shapes.py` (Rectangle with SAT overlap, ray-casting
  containment, circle overlap; Circle; PhysicsRectangle tank drive);
* `EnvPy` — `environment.py` (rejection-sampling obstacle placement,
  zones of the tk arena);
* `LunaEnv` — `python_training/env/lunabotics_env.py` (zone classifier,
  obstacle spawning of the gymnasium environment).

Python float arithmetic is modelled by exact real arithmetic; loops whose
trip count is fixed in the source (the four rectangle corners and edges)
are unrolled; the unbounded rejection-sampling loop is modelled by an
explicit finite stream of random candidates.
-/

noncomputable section

open Classical

namespace PyPhys

/-- 2D vector helper (physics.py, `Vec2`). -/
structure Vec2 where
  x : ℝ
  y : ℝ

/-- physics.py `Vec2.__add__`. -/
def Vec2.add (a b : Vec2) : Vec2 := ⟨a.x + b.x, a.y + b.y⟩

/-- physics.py `Vec2.__sub__`. -/
def Vec2.sub (a b : Vec2) : Vec2 := ⟨a.x - b.x, a.y - b.y⟩

/-- physics.py `Vec2.__mul__` (scalar multiple). -/
def Vec2.smul (a : Vec2) (s : ℝ) : Vec2 := ⟨a.x * s, a.y * s⟩

/-- physics.py `Vec2.magnitude`: `np.sqrt(x**2 + y**2)`. -/
def Vec2.magnitude (a : Vec2) : ℝ := Real.sqrt (a.x ^ 2 + a.y ^ 2)

/-- physics.py `Vec2.normalize`: the division is guarded by the
`mag == 0` check and the zero vector is returned in that case. -/
def Vec2.normalize (a : Vec2) : Vec2 :=
  if a.magnitude = 0 then ⟨0, 0⟩ else ⟨a.x / a.magnitude, a.y / a.magnitude⟩

/-- physics.py `RigidBody`. -/
structure RigidBody where
  position : Vec2
  velocity : Vec2
  angle : ℝ
  angular_velocity : ℝ
  width : ℝ
  height : ℝ
  is_static : Bool := false
  friction : ℝ := 0.5
  restitution : ℝ := 0.3

/-- `np.arctan2 y x` (used by `RigidBody.update` to renormalize the angle). -/
def arctan2 (y x : ℝ) : ℝ :=
  if 0 < x then Real.arctan (y / x)
  else if x < 0 ∧ 0 ≤ y then Real.arctan (y / x) + Real.pi
  else if x < 0 ∧ y < 0 then Real.arctan (y / x) - Real.pi
  else if x = 0 ∧ 0 < y then Real.pi / 2
  else if x = 0 ∧ y < 0 then -(Real.pi / 2)
  else 0

/-- physics.py `RigidBody.update`: friction decay of linear and angular
velocity (scaled by `dt`), Euler position update, angle normalization. -/
def RigidBody.update (b : RigidBody) (dt : ℝ) : RigidBody :=
  if b.is_static then b else
    { b with
      velocity := b.velocity.smul (1 - b.friction * dt)
      angular_velocity := b.angular_velocity * (1 - b.friction * dt)
      position := b.position.add ((b.velocity.smul (1 - b.friction * dt)).smul dt)
      angle := arctan2 (Real.sin (b.angle + b.angular_velocity * (1 - b.friction * dt) * dt))
                       (Real.cos (b.angle + b.angular_velocity * (1 - b.friction * dt) * dt)) }

/-- One world corner of the body (physics.py `RigidBody.get_corners`,
local corner `(cx, cy)` rotated by `angle` and translated). -/
def RigidBody.cornerAt (b : RigidBody) (cx cy : ℝ) : Vec2 :=
  ⟨cx * Real.cos b.angle - cy * Real.sin b.angle + b.position.x,
   cx * Real.sin b.angle + cy * Real.cos b.angle + b.position.y⟩

/-- physics.py `RigidBody.get_corners`. -/
def RigidBody.get_corners (b : RigidBody) : List Vec2 :=
  [b.cornerAt (-(b.width / 2)) (-(b.height / 2)),
   b.cornerAt (b.width / 2) (-(b.height / 2)),
   b.cornerAt (b.width / 2) (b.height / 2),
   b.cornerAt (-(b.width / 2)) (b.height / 2)]

/-- physics.py `Circle` (obstacles, orbs). -/
structure PCircle where
  position : Vec2
  radius : ℝ
  is_static : Bool := true

/-- physics.py `PhysicsEngine` state. -/
structure PhysicsEngine where
  world_width : ℝ
  world_height : ℝ
  bodies : List RigidBody
  circles : List PCircle

/-- The two x-plane wall branches of `PhysicsEngine._check_collisions`
(`if/elif` on `position.x ∓ width/2`). -/
def wallX (W : ℝ) (b : RigidBody) : RigidBody :=
  if b.position.x - b.width / 2 < 0 then
    { b with position := ⟨b.width / 2, b.position.y⟩,
             velocity := ⟨-b.velocity.x * b.restitution, b.velocity.y⟩ }
  else if W < b.position.x + b.width / 2 then
    { b with position := ⟨W - b.width / 2, b.position.y⟩,
             velocity := ⟨-b.velocity.x * b.restitution, b.velocity.y⟩ }
  else b

/-- The two y-plane wall branches of `PhysicsEngine._check_collisions`. -/
def wallY (H : ℝ) (b : RigidBody) : RigidBody :=
  if b.position.y - b.height / 2 < 0 then
    { b with position := ⟨b.position.x, b.height / 2⟩,
             velocity := ⟨b.velocity.x, -b.velocity.y * b.restitution⟩ }
  else if H < b.position.y + b.height / 2 then
    { b with position := ⟨b.position.x, H - b.height / 2⟩,
             velocity := ⟨b.velocity.x, -b.velocity.y * b.restitution⟩ }
  else b

/-- Wall-collision resolution of `PhysicsEngine._check_collisions`:
the x planes are tested first, then the y planes on the updated body. -/
def resolveWalls (W H : ℝ) (b : RigidBody) : RigidBody := wallY H (wallX W b)

/-- physics.py `PhysicsEngine._check_rect_circle_collision`: axis-aligned
closest point on the rectangle's AABB, strict comparison with the radius. -/
def check_rect_circle_collision (rect : RigidBody) (circle : PCircle) : Prop :=
  Real.sqrt
    ((max (rect.position.x - rect.width / 2)
        (min circle.position.x (rect.position.x + rect.width / 2)) - circle.position.x) ^ 2 +
     (max (rect.position.y - rect.height / 2)
        (min circle.position.y (rect.position.y + rect.height / 2)) - circle.position.y) ^ 2)
    < circle.radius

/-- The obstacle-circle branch of `PhysicsEngine._check_collisions`: on a
detected collision with positive overlap the body is pushed out along the
normalized center difference and its velocity is reflected and scaled by
the restitution coefficient. -/
def resolveCircle (b : RigidBody) (c : PCircle) : RigidBody :=
  if check_rect_circle_collision b c then
    if 0 < c.radius + max (b.width / 2) (b.height / 2) - (b.position.sub c.position).magnitude
    then
      { b with
        position := b.position.add
          (((b.position.sub c.position).normalize).smul
            (c.radius + max (b.width / 2) (b.height / 2) -
              (b.position.sub c.position).magnitude)),
        velocity := b.velocity.smul (-b.restitution) }
    else b
  else b

/-- The obstacle loop of `PhysicsEngine._check_collisions` (the body is
updated sequentially against each circle of the world). -/
def resolveCircles (b : RigidBody) (cs : List PCircle) : RigidBody :=
  cs.foldl resolveCircle b

/-- physics.py `PhysicsEngine._check_collisions`. -/
def check_collisions (e : PhysicsEngine) : PhysicsEngine :=
  { e with
    bodies := e.bodies.map fun b =>
      if b.is_static then b
      else resolveCircles (resolveWalls e.world_width e.world_height b) e.circles }

/-- physics.py `PhysicsEngine.step`: integrate all bodies, then check
and resolve collisions. -/
def step (e : PhysicsEngine) (dt : ℝ) : PhysicsEngine :=
  check_collisions { e with bodies := e.bodies.map (fun b => b.update dt) }

/-- physics.py `PhysicsEngine.get_circle_collisions`: the circles a body
collides with, surfaced to the driver (no state change). -/
def get_circle_collisions (e : PhysicsEngine) (b : RigidBody) : List PCircle :=
  e.circles.filter fun c => check_rect_circle_collision b c

end PyPhys

namespace Shapes

/-- shapes.py `math.radians`. -/
def radians (d : ℝ) : ℝ := d * Real.pi / 180

/-- shapes.py `math.hypot`. -/
def hypot (x y : ℝ) : ℝ := Real.sqrt (x ^ 2 + y ^ 2)

/-- shapes.py `Rectangle`: a rectangle centered at `(x, y)`, rotated by
`angle` degrees (the canvas handle and colors are rendering state and are
not part of the model). -/
structure Rectangle where
  width : ℝ
  height : ℝ
  x : ℝ
  y : ℝ
  angle : ℝ := 0

/-- One corner of `Rectangle.calculate_corners`: the unrotated local corner
`(cx, cy)` is rotated by the matrix `(c, s; -s, c)` and translated. -/
def Rectangle.rotC (r : Rectangle) (cx cy : ℝ) : ℝ × ℝ :=
  (cx * Real.cos (radians r.angle) + cy * Real.sin (radians r.angle) + r.x,
   -(cx * Real.sin (radians r.angle)) + cy * Real.cos (radians r.angle) + r.y)

/-- First corner of `Rectangle.calculate_corners` (local `(-w/2, -h/2)`). -/
def Rectangle.corner0 (r : Rectangle) : ℝ × ℝ := r.rotC (-(r.width / 2)) (-(r.height / 2))

/-- Second corner (local `(w/2, -h/2)`). -/
def Rectangle.corner1 (r : Rectangle) : ℝ × ℝ := r.rotC (r.width / 2) (-(r.height / 2))

/-- Third corner (local `(w/2, h/2)`). -/
def Rectangle.corner2 (r : Rectangle) : ℝ × ℝ := r.rotC (r.width / 2) (r.height / 2)

/-- Fourth corner (local `(-w/2, h/2)`). -/
def Rectangle.corner3 (r : Rectangle) : ℝ × ℝ := r.rotC (-(r.width / 2)) (r.height / 2)

/-- shapes.py `Rectangle.corners` as recomputed by `calculate_corners`
(the source recomputes this cache after every mutation of `x`, `y`,
`angle`, so the model derives it from the current state on demand). -/
def Rectangle.corners (r : Rectangle) : List (ℝ × ℝ) :=
  [r.corner0, r.corner1, r.corner2, r.corner3]

/-- shapes.py `Rectangle.set_pos`: each field is assigned only when the
supplied argument is truthy (`if x:`), i.e. present and nonzero. -/
def Rectangle.set_pos (r : Rectangle) (x y angle : Option ℝ) : Rectangle :=
  let r1 := match x with
    | none => r
    | some v => if v = 0 then r else { r with x := v }
  let r2 := match y with
    | none => r1
    | some v => if v = 0 then r1 else { r1 with y := v }
  match angle with
    | none => r2
    | some v => if v = 0 then r2 else { r2 with angle := v }

/-- shapes.py `Rectangle.rotate_about`: rotate the center about `(px, py)`
by `da` degrees and add `da` to the stored angle. -/
def Rectangle.rotate_about (r : Rectangle) (px py da : ℝ) : Rectangle :=
  { r with
    x := (r.x - px) * Real.cos (radians da) + (r.y - py) * Real.sin (radians da) + px,
    y := -((r.x - px) * Real.sin (radians da)) + (r.y - py) * Real.cos (radians da) + py,
    angle := r.angle + da }

/-- shapes.py `ARENA_WIDTH`. -/
def ARENA_WIDTH : ℝ := 6.88

/-- shapes.py `ARENA_HEIGHT`. -/
def ARENA_HEIGHT : ℝ := 5

/-- shapes.py `Rectangle.is_in_bounds`: every corner inside the arena. -/
def Rectangle.is_in_bounds (r : Rectangle) : Prop :=
  ∀ p ∈ r.corners, ¬(p.1 < 0 ∨ ARENA_WIDTH < p.1 ∨ p.2 < 0 ∨ ARENA_HEIGHT < p.2)

/-- One iteration of the ray-casting loop of `Rectangle.contains`: the edge
from `a` to `b` toggles the parity for point `p` when the strict `y` tests
differ and `p` is left of the crossing (with the `1e-12` guard of the
source in the denominator). -/
def edgeCross (p a b : ℝ × ℝ) : Prop :=
  (¬((p.2 < a.2) ↔ (p.2 < b.2))) ∧
  p.1 < (b.1 - a.1) * (p.2 - a.2) / (b.2 - a.2 + 1e-12) + a.1

/-- Ray-casting point-in-polygon parity over the four directed edges of a
quadrilateral, as accumulated by the `inside = not inside` toggle of
`Rectangle.contains`. -/
def raycastOdd (p c0 c1 c2 c3 : ℝ × ℝ) : Prop :=
  Xor' (Xor' (Xor' (edgeCross p c0 c1) (edgeCross p c1 c2)) (edgeCross p c2 c3))
    (edgeCross p c3 c0)

/-- shapes.py `Rectangle.contains`. -/
def Rectangle.contains (r : Rectangle) (p : ℝ × ℝ) : Prop :=
  raycastOdd p r.corner0 r.corner1 r.corner2 r.corner3

/-- The unclamped projection parameter of
`Rectangle.circle_overlap.distance_point_to_segment`
(`(w·v) / (v·v + 1e-12)`). -/
def projT (p a b : ℝ × ℝ) : ℝ :=
  ((p.1 - a.1) * (b.1 - a.1) + (p.2 - a.2) * (b.2 - a.2)) /
    ((b.1 - a.1) * (b.1 - a.1) + (b.2 - a.2) * (b.2 - a.2) + 1e-12)

/-- `max(0, min(1, t))` of the source. -/
def clamp01 (t : ℝ) : ℝ := max 0 (min 1 t)

/-- shapes.py `distance_point_to_segment` (inside `circle_overlap`):
distance from `p` to the closest point of the segment `a`–`b`, obtained
from the parametric projection clamped to `[0, 1]`. -/
def distance_point_to_segment (p a b : ℝ × ℝ) : ℝ :=
  hypot (p.1 - (a.1 + clamp01 (projT p a b) * (b.1 - a.1)))
        (p.2 - (a.2 + clamp01 (projT p a b) * (b.2 - a.2)))

/-- shapes.py `Circle` (center `(x, y)`, radius in meters). -/
structure Circle where
  radius : ℝ
  x : ℝ
  y : ℝ

/-- shapes.py `Rectangle.circle_overlap`: the circle center is contained in
the rectangle, or some of the four edges is within `radius` of it. -/
def Rectangle.circle_overlap (r : Rectangle) (c : Circle) : Prop :=
  r.contains (c.x, c.y) ∨
  (distance_point_to_segment (c.x, c.y) r.corner0 r.corner1 ≤ c.radius ∨
   distance_point_to_segment (c.x, c.y) r.corner1 r.corner2 ≤ c.radius ∨
   distance_point_to_segment (c.x, c.y) r.corner2 r.corner3 ≤ c.radius ∨
   distance_point_to_segment (c.x, c.y) r.corner3 r.corner0 ≤ c.radius)

/-- Edge normal of `Rectangle.rectangle_overlap.get_axes`:
`(-(y2-y1), x2-x1)`. -/
def axisOf (a b : ℝ × ℝ) : ℝ × ℝ := (-(b.2 - a.2), b.1 - a.1)

/-- `get_axes` of `Rectangle.rectangle_overlap` over the cyclically
consecutive corner pairs. -/
def Rectangle.get_axes (r : Rectangle) : List (ℝ × ℝ) :=
  [axisOf r.corner0 r.corner1, axisOf r.corner1 r.corner2,
   axisOf r.corner2 r.corner3, axisOf r.corner3 r.corner0]

/-- Dot product with an axis, as in `project` of `rectangle_overlap`. -/
def dotAx (p ax : ℝ × ℝ) : ℝ := p.1 * ax.1 + p.2 * ax.2

/-- `min(dots)` of `project` over the four corners. -/
def Rectangle.projMin (r : Rectangle) (ax : ℝ × ℝ) : ℝ :=
  min (min (min (dotAx r.corner0 ax) (dotAx r.corner1 ax)) (dotAx r.corner2 ax))
    (dotAx r.corner3 ax)

/-- `max(dots)` of `project` over the four corners. -/
def Rectangle.projMax (r : Rectangle) (ax : ℝ × ℝ) : ℝ :=
  max (max (max (dotAx r.corner0 ax) (dotAx r.corner1 ax)) (dotAx r.corner2 ax))
    (dotAx r.corner3 ax)

/-- The separating test of `rectangle_overlap` on one axis:
`max1 < min2 or max2 < min1`. -/
def sepAxis (r1 r2 : Rectangle) (ax : ℝ × ℝ) : Prop :=
  r1.projMax ax < r2.projMin ax ∨ r2.projMax ax < r1.projMin ax

/-- Normalization `(axis[0]/length, axis[1]/length)` of `rectangle_overlap`. -/
def normAxis (ax : ℝ × ℝ) : ℝ × ℝ := (ax.1 / hypot ax.1 ax.2, ax.2 / hypot ax.1 ax.2)

/-- shapes.py `Rectangle.rectangle_overlap` (SAT): the rectangles overlap
when no axis of nonzero length separates the corner projections; axes of
zero length are skipped by the `continue` of the source. -/
def Rectangle.rectangle_overlap (r1 r2 : Rectangle) : Prop :=
  ∀ ax ∈ r1.get_axes ++ r2.get_axes, hypot ax.1 ax.2 ≠ 0 → ¬sepAxis r1 r2 (normAxis ax)

/-- shapes.py `Circle.contains`. -/
def Circle.contains (c : Circle) (p : ℝ × ℝ) : Prop :=
  Real.sqrt ((p.1 - c.x) ^ 2 + (p.2 - c.y) ^ 2) ≤ c.radius

/-- The circle-circle branch of shapes.py `Circle.collides`: center
distance at most the sum of the radii. -/
def Circle.circle_collides (c o : Circle) : Prop :=
  Real.sqrt ((o.x - c.x) ^ 2 + (o.y - c.y) ^ 2) ≤ c.radius + o.radius

/-- A shape as dispatched on by the `isinstance` tests of
`Rectangle.collides` and `Circle.collides`. -/
inductive PShape where
  | circ : Circle → PShape
  | rect : Rectangle → PShape

/-- The `collides` double dispatch of shapes.py: `Rectangle.collides`
dispatches to `circle_overlap`/`rectangle_overlap`, and `Circle.collides`
handles circles directly and delegates rectangles back to
`Rectangle.collides`. -/
def PShape.collides : PShape → PShape → Prop
  | .rect r1, .rect r2 => r1.rectangle_overlap r2
  | .rect r, .circ c => r.circle_overlap c
  | .circ c, .circ o => c.circle_collides o
  | .circ c, .rect r => r.circle_overlap c

/-- shapes.py `PhysicsRectangle` (tank-drive rover body): the rectangle
pose plus the linear velocity of `PhysicsObject` and the two independent
angular-velocity accumulators. -/
structure PhysicsRectangle where
  width : ℝ
  height : ℝ
  x : ℝ
  y : ℝ
  angle : ℝ
  vx : ℝ := 0
  vy : ℝ := 0
  mass : ℝ
  omega_right : ℝ := 0
  omega_left : ℝ := 0

/-- The rectangle pose of a `PhysicsRectangle`. -/
def PhysicsRectangle.toRect (b : PhysicsRectangle) : Rectangle :=
  ⟨b.width, b.height, b.x, b.y, b.angle⟩

/-- shapes.py `PhysicsRectangle._I_CM` (as written in the source). -/
def PhysicsRectangle.I_CM (b : PhysicsRectangle) : ℝ :=
  b.mass * (b.width / 12 + b.height / 12)

/-- shapes.py `PhysicsRectangle._I_Edge` (parallel axis theorem). -/
def PhysicsRectangle.I_Edge (b : PhysicsRectangle) : ℝ :=
  b.I_CM + b.mass * (b.width / 2) ^ 2

/-- shapes.py `PhysicsRectangle.torque_right`. -/
def PhysicsRectangle.torque_right (b : PhysicsRectangle) (t : ℝ) : PhysicsRectangle :=
  { b with omega_right := b.omega_right + t / b.I_Edge }

/-- shapes.py `PhysicsRectangle.torque_left`. -/
def PhysicsRectangle.torque_left (b : PhysicsRectangle) (t : ℝ) : PhysicsRectangle :=
  { b with omega_left := b.omega_left + t / b.I_Edge }

/-- shapes.py `PhysicsRectangle.drag`: both angular-velocity accumulators
lose a fixed fraction `.2` per call, with no `dt` anywhere. -/
def PhysicsRectangle.drag (b : PhysicsRectangle) : PhysicsRectangle :=
  { b with omega_right := b.omega_right - b.omega_right * 0.2,
           omega_left := b.omega_left - b.omega_left * 0.2 }

/-- `rotate_about` lifted to `PhysicsRectangle` (same formula on its pose
fields). -/
def PhysicsRectangle.rotate_about (b : PhysicsRectangle) (px py da : ℝ) : PhysicsRectangle :=
  { b with
    x := (b.x - px) * Real.cos (radians da) + (b.y - py) * Real.sin (radians da) + px,
    y := -((b.x - px) * Real.sin (radians da)) + (b.y - py) * Real.cos (radians da) + py,
    angle := b.angle + da }

/-- shapes.py `PhysicsRectangle.update`: apply drag, read the corner cache
(unchanged by drag), rotate about the right then the left edge midpoint by
the respective accumulator (in degrees), then translate by the linear
velocity. No `dt` appears anywhere in this per-frame step. -/
def PhysicsRectangle.update (b : PhysicsRectangle) : PhysicsRectangle :=
  let b0 := b.drag
  let tr := b0.toRect.corner1
  let br := b0.toRect.corner2
  let tl := b0.toRect.corner0
  let bl := b0.toRect.corner3
  let b1 := b0.rotate_about ((tr.1 + br.1) / 2) ((tr.2 + br.2) / 2) b0.omega_right
  let b2 := b1.rotate_about ((tl.1 + bl.1) / 2) ((tl.2 + bl.2) / 2) b1.omega_left
  { b2 with x := b2.x + b2.vx, y := b2.y + b2.vy }

end Shapes

namespace EnvPy

open Shapes

/-- environment.py `Zone.__init__`: a `Zone` is a `Rectangle` built from a
top-left and a bottom-right arena point (angle defaults to 0). -/
def mkZone (top_left bottom_right : ℝ × ℝ) : Rectangle :=
  { width := bottom_right.1 - top_left.1,
    height := top_left.2 - bottom_right.2,
    x := top_left.1 + (bottom_right.1 - top_left.1) / 2,
    y := bottom_right.2 + (top_left.2 - bottom_right.2) / 2,
    angle := 0 }

/-- environment.py `_create_zones`: the start zone. -/
def start_zone : Rectangle := mkZone (0, 2) (2, 0)

/-- environment.py `_create_zones`: the construction zone. -/
def construction_zone : Rectangle := mkZone (4.58, 0.8) (4.58 + 1.7, 0.1)

/-- environment.py `_create_zones`: the keep-clear column. -/
def column : Rectangle := mkZone (3.44 - 0.25, 2.5 - 0.25) (3.44 + 0.25, 2.5 + 0.25)

/-- The commit condition of `Environment.create_obstacle`: the candidate
circle collides with no already placed obstacle (circle-circle test of
`Shapes.Circle.collides`) and with none of the three protected zones
(`Shapes.Circle.collides` on a `Zone` delegates to
`Rectangle.circle_overlap zone candidate`). -/
def obstacle_ok (placed : List Shapes.Circle) (c : Shapes.Circle) : Prop :=
  (∀ o ∈ placed, ¬c.circle_collides o) ∧
  ¬start_zone.circle_overlap c ∧
  ¬column.circle_overlap c ∧
  ¬construction_zone.circle_overlap c

/-- environment.py `Environment.create_obstacle`: the unbounded rejection
loop, modelled on an explicit finite stream of random candidate circles
(`constructor(self.canvas)` draws). The first candidate satisfying the
commit condition is appended; rejected candidates are discarded; `none`
models a stream that ran out before a candidate was accepted. -/
def create_obstacle : List Shapes.Circle → List Shapes.Circle → Option (List Shapes.Circle × List Shapes.Circle)
  | [], _ => none
  | c :: rest, placed =>
      if obstacle_ok placed c then some (placed ++ [c], rest)
      else create_obstacle rest placed

/-- The obstacle-creation loops of `Environment.reset_arena`: place `n`
obstacles in sequence (the boulder and crater counts are random; `n` is
their total). -/
def place_many : ℕ → List Shapes.Circle → List Shapes.Circle → Option (List Shapes.Circle × List Shapes.Circle)
  | 0, tape, placed => some (placed, tape)
  | n + 1, tape, placed =>
      match create_obstacle tape placed with
      | none => none
      | some (placed', tape') => place_many n tape' placed'

/-- environment.py `Environment.reset_arena`, obstacle part: clear the
obstacle list, then place the drawn number of boulders and craters. -/
def reset_arena (n : ℕ) (tape : List Shapes.Circle) : Option (List Shapes.Circle × List Shapes.Circle) :=
  place_many n tape []

/-- No two placed obstacles collide (in the circle-circle sense of
`Shapes.Circle.collides`). -/
def pairwise_ok (l : List Shapes.Circle) : Prop :=
  l.Pairwise fun a b => ¬a.circle_collides b

/-- No placed obstacle overlaps a protected zone. -/
def zones_ok (l : List Shapes.Circle) : Prop :=
  ∀ c ∈ l,
    ¬start_zone.circle_overlap c ∧ ¬column.circle_overlap c ∧
    ¬construction_zone.circle_overlap c

end EnvPy

namespace LunaEnv

open PyPhys

/-- rewards/reward_calculator.py `Zone` enumeration. -/
inductive Zone where
  | STARTING
  | EXCAVATION
  | OBSTACLE
  | CONSTRUCTION
  | TARGET_BERM
  | NONE
deriving DecidableEq

/-- config/ml_config.py `MLConfig.ZONE_STARTING`. -/
def ZONE_STARTING : ℝ × ℝ × ℝ × ℝ := (0.0, 2.0, 3.0, 5.0)

/-- config/ml_config.py `MLConfig.ZONE_EXCAVATION`. -/
def ZONE_EXCAVATION : ℝ × ℝ × ℝ × ℝ := (0.0, 2.5, 0.0, 3.0)

/-- config/ml_config.py `MLConfig.ZONE_OBSTACLE`. -/
def ZONE_OBSTACLE : ℝ × ℝ × ℝ × ℝ := (2.5, 6.88, 0.0, 5.0)

/-- config/ml_config.py `MLConfig.ZONE_CONSTRUCTION`. -/
def ZONE_CONSTRUCTION : ℝ × ℝ × ℝ × ℝ := (6.88, 9.88, 0.0, 1.5)

/-- config/ml_config.py `MLConfig.ZONE_TARGET_BERM`. -/
def ZONE_TARGET_BERM : ℝ × ℝ × ℝ × ℝ := (6.88, 8.58, 0.35, 1.15)

/-- lunabotics_env.py `LunaboticsEnv._point_in_bounds`: containment is
inclusive on all four edges. -/
def point_in_bounds (x y x_min x_max y_min y_max : ℝ) : Prop :=
  x_min ≤ x ∧ x ≤ x_max ∧ y_min ≤ y ∧ y ≤ y_max

/-- lunabotics_env.py `LunaboticsEnv._get_zone`: the `if/elif` chain over
the zones, highest priority first. -/
def get_zone (p : Vec2) : Zone :=
  if point_in_bounds p.x p.y ZONE_TARGET_BERM.1 ZONE_TARGET_BERM.2.1
      ZONE_TARGET_BERM.2.2.1 ZONE_TARGET_BERM.2.2.2 then .TARGET_BERM
  else if point_in_bounds p.x p.y ZONE_CONSTRUCTION.1 ZONE_CONSTRUCTION.2.1
      ZONE_CONSTRUCTION.2.2.1 ZONE_CONSTRUCTION.2.2.2 then .CONSTRUCTION
  else if point_in_bounds p.x p.y ZONE_STARTING.1 ZONE_STARTING.2.1
      ZONE_STARTING.2.2.1 ZONE_STARTING.2.2.2 then .STARTING
  else if point_in_bounds p.x p.y ZONE_EXCAVATION.1 ZONE_EXCAVATION.2.1
      ZONE_EXCAVATION.2.2.1 ZONE_EXCAVATION.2.2.2 then .EXCAVATION
  else if point_in_bounds p.x p.y ZONE_OBSTACLE.1 ZONE_OBSTACLE.2.1
      ZONE_OBSTACLE.2.2.1 ZONE_OBSTACLE.2.2.2 then .OBSTACLE
  else .NONE

/-- Modelled from the spec: a priority-ordered zone table entry
(`Zone: bounds, priority, id`); the code keeps this table implicit in the
ordering of the `_get_zone` chain. -/
structure SpecZone where
  id : Zone
  bounds : ℝ × ℝ × ℝ × ℝ
  priority : ℕ

/-- Modelled from the spec: the zone list of the training arena in
descending priority order. -/
def orderedZones : List SpecZone :=
  [⟨.TARGET_BERM, ZONE_TARGET_BERM, 5⟩,
   ⟨.CONSTRUCTION, ZONE_CONSTRUCTION, 4⟩,
   ⟨.STARTING, ZONE_STARTING, 3⟩,
   ⟨.EXCAVATION, ZONE_EXCAVATION, 2⟩,
   ⟨.OBSTACLE, ZONE_OBSTACLE, 1⟩]

/-- A zone's rectangular bounds contain the point (inclusive). -/
def inZone (p : Vec2) (z : SpecZone) : Prop :=
  point_in_bounds p.x p.y z.bounds.1 z.bounds.2.1 z.bounds.2.2.1 z.bounds.2.2.2

/-- Modelled from the spec: `classify(point)` iterates the zones in
descending priority order and returns the id of the first zone containing
the point, `NONE` if none does. -/
def classifySpec : List SpecZone → Vec2 → Zone
  | [], _ => .NONE
  | z :: rest, p => if inZone p z then z.id else classifySpec rest p

/-- lunabotics_env.py `reset`, obstacle part: rocks and craters are
created directly from the random draws (position uniform in the obstacle
zone, radius uniform in the kind's range) and added to the world, with no
rejection test of any kind. -/
def spawn_obstacles (draws : List (Vec2 × ℝ)) : List PCircle :=
  draws.map fun d => ⟨d.1, d.2, true⟩

/-- Modelled from the spec: two circles overlap when their center distance
is at most the sum of their radii (the repository's circle-vs-circle
test); lunabotics_env.py itself never tests its obstacles against each
other. -/
def circlesOverlap (a b : PCircle) : Prop :=
  Real.sqrt ((b.position.x - a.position.x) ^ 2 + (b.position.y - a.position.y) ^ 2) ≤
    a.radius + b.radius

end LunaEnv

/-! ## Helper lemmas -/

/-- The circle-circle test of shapes.py is symmetric. -/
lemma circle_collides_comm (a b : Shapes.Circle) :
    a.circle_collides b ↔ b.circle_collides a := by
  unfold Shapes.Circle.circle_collides
  rw [show (b.x - a.x) ^ 2 + (b.y - a.y) ^ 2 = (a.x - b.x) ^ 2 + (a.y - b.y) ^ 2 by ring,
    add_comm a.radius b.radius]

/-- The per-axis separation test is symmetric in the two rectangles. -/
lemma sepAxis_comm (r1 r2 : Shapes.Rectangle) (ax : ℝ × ℝ) :
    Shapes.sepAxis r1 r2 ax ↔ Shapes.sepAxis r2 r1 ax :=
  or_comm

/-- The SAT overlap test of shapes.py is symmetric. -/
lemma rectangle_overlap_comm (r1 r2 : Shapes.Rectangle) :
    r1.rectangle_overlap r2 ↔ r2.rectangle_overlap r1 := by
  unfold Shapes.Rectangle.rectangle_overlap
  constructor <;> intro h ax hmem hlen hs
  · have hm : ax ∈ r1.get_axes ++ r2.get_axes := by
      rcases List.mem_append.mp hmem with h1 | h2
      exacts [List.mem_append.mpr (Or.inr h1), List.mem_append.mpr (Or.inl h2)]
    exact h ax hm hlen ((sepAxis_comm r1 r2 _).mpr hs)
  · have hm : ax ∈ r2.get_axes ++ r1.get_axes := by
      rcases List.mem_append.mp hmem with h1 | h2
      exacts [List.mem_append.mpr (Or.inr h1), List.mem_append.mpr (Or.inl h2)]
    exact h ax hm hlen ((sepAxis_comm r2 r1 _).mpr hs)

/-- Projection minima never exceed projection maxima. -/
lemma projMin_le_projMax (r : Shapes.Rectangle) (ax : ℝ × ℝ) :
    r.projMin ax ≤ r.projMax ax :=
  le_trans (min_le_right _ _) (le_max_right _ _)

/-! ## C9 — `normalize()` on the zero vector -/

/-- C9: `Vec2.normalize` is total; on any vector of zero magnitude (in
particular the zero vector) the guarded division is skipped and the zero
vector is returned. -/
theorem C9_normalize_zero_vector (v : PyPhys.Vec2)
    (h : v.magnitude = 0) : v.normalize = ⟨0, 0⟩ := by
  simp [PyPhys.Vec2.normalize, h]

/-- Witness for C9 at the zero vector. -/
theorem C9_normalize_zero_vector_witness :
    (PyPhys.Vec2.mk 0 0).magnitude = 0 ∧ (PyPhys.Vec2.mk 0 0).normalize = ⟨0, 0⟩ :=
  ⟨by norm_num [PyPhys.Vec2.magnitude],
   C9_normalize_zero_vector _ (by norm_num [PyPhys.Vec2.magnitude])⟩

/-! ## C10 — truthiness of `set_pos` arguments -/

/-- C10: `Rectangle.set_pos` updates each field only when the supplied
argument is truthy, so passing `0.0` for `x`, `y` or `angle` leaves the
corresponding field at its previous value. -/
theorem C10_set_pos_zero_is_noop (r : Shapes.Rectangle) (ox oy oa : Option ℝ) :
    (r.set_pos (some 0) oy oa).x = r.x ∧
    (r.set_pos ox (some 0) oa).y = r.y ∧
    (r.set_pos ox oy (some 0)).angle = r.angle := by
  refine ⟨?_, ?_, ?_⟩ <;>
    · cases ox <;> cases oy <;> cases oa <;>
        simp only [Shapes.Rectangle.set_pos] <;> split_ifs <;> rfl

/-! ## C1 — per-step exponential drag on both accumulators -/

/-- C1: each `PhysicsRectangle.update` multiplies both angular-velocity
accumulators by `1 - 0.2` (a fixed per-step drag coefficient in `(0,1)`,
with no `dt` anywhere in the step), so with no torque applied between
steps the magnitudes strictly decrease (when nonzero) and the signs never
change. -/
theorem C1_drag_decays_both_accumulators (b : Shapes.PhysicsRectangle) :
    b.update.omega_left = b.omega_left * (1 - 0.2) ∧
    b.update.omega_right = b.omega_right * (1 - 0.2) ∧
    (b.omega_left ≠ 0 → |b.update.omega_left| < |b.omega_left|) ∧
    (b.omega_right ≠ 0 → |b.update.omega_right| < |b.omega_right|) ∧
    (0 < b.omega_left → 0 < b.update.omega_left) ∧
    (b.omega_left < 0 → b.update.omega_left < 0) ∧
    (0 < b.omega_right → 0 < b.update.omega_right) ∧
    (b.omega_right < 0 → b.update.omega_right < 0) := by
  have hL : b.update.omega_left = b.omega_left * (1 - 0.2) := by
    simp [Shapes.PhysicsRectangle.update, Shapes.PhysicsRectangle.drag,
      Shapes.PhysicsRectangle.rotate_about]
    ring
  have hR : b.update.omega_right = b.omega_right * (1 - 0.2) := by
    simp [Shapes.PhysicsRectangle.update, Shapes.PhysicsRectangle.drag,
      Shapes.PhysicsRectangle.rotate_about]
    ring
  refine ⟨hL, hR, ?_, ?_, ?_, ?_, ?_, ?_⟩ <;> intro h
  · rw [hL, abs_mul]
    have h1 : |b.omega_left| * |(1 - 0.2 : ℝ)| < |b.omega_left| * 1 := by
      apply mul_lt_mul_of_pos_left _ (abs_pos.mpr h)
      rw [abs_of_pos] <;> norm_num
    simpa [mul_comm] using h1
  · rw [hR, abs_mul]
    have h1 : |b.omega_right| * |(1 - 0.2 : ℝ)| < |b.omega_right| * 1 := by
      apply mul_lt_mul_of_pos_left _ (abs_pos.mpr h)
      rw [abs_of_pos] <;> norm_num
    simpa [mul_comm] using h1
  · rw [hL]; nlinarith
  · rw [hL]; nlinarith
  · rw [hR]; nlinarith
  · rw [hR]; nlinarith

/-- The rover body of shapes.py (`Rover.__init__` dimensions and mass)
with one spin-up accumulator value per side, used to witness C1. -/
def c1Body : Shapes.PhysicsRectangle :=
  { width := 0.75, height := 1.5, x := 1, y := 1, angle := 0,
    vx := 0, vy := 0, mass := 80, omega_right := -2, omega_left := 1 }

/-- Witness for C1 on a concrete spinning body. -/
theorem C1_drag_decays_both_accumulators_witness :
    |c1Body.update.omega_left| < |c1Body.omega_left| ∧
    |c1Body.update.omega_right| < |c1Body.omega_right| ∧
    0 < c1Body.update.omega_left ∧ c1Body.update.omega_right < 0 :=
  ⟨(C1_drag_decays_both_accumulators c1Body).2.2.1 (by norm_num [c1Body]),
   (C1_drag_decays_both_accumulators c1Body).2.2.2.1 (by norm_num [c1Body]),
   (C1_drag_decays_both_accumulators c1Body).2.2.2.2.1 (by norm_num [c1Body]),
   (C1_drag_decays_both_accumulators c1Body).2.2.2.2.2.2.2 (by norm_num [c1Body])⟩

/-- Corner coordinates of an unrotated rectangle. -/
lemma corners_axis_aligned (r : Shapes.Rectangle) (h : r.angle = 0) :
    r.corner0 = (r.x - r.width / 2, r.y - r.height / 2) ∧
    r.corner1 = (r.x + r.width / 2, r.y - r.height / 2) ∧
    r.corner2 = (r.x + r.width / 2, r.y + r.height / 2) ∧
    r.corner3 = (r.x - r.width / 2, r.y + r.height / 2) := by
  have hc : Real.cos (Shapes.radians r.angle) = 1 := by rw [h]; simp [Shapes.radians]
  have hs : Real.sin (Shapes.radians r.angle) = 0 := by rw [h]; simp [Shapes.radians]
  unfold Shapes.Rectangle.corner0 Shapes.Rectangle.corner1 Shapes.Rectangle.corner2
    Shapes.Rectangle.corner3 Shapes.Rectangle.rotC
  rw [hc, hs]
  refine ⟨?_, ?_, ?_, ?_⟩ <;> simp [Prod.ext_iff] <;> constructor <;> ring

/-! ## C3 — symmetry of `collides` -/

/-- C3: for every pair of shapes (each a circle or a rectangle), the
`collides` double dispatch yields the same answer in both argument
orders. -/
theorem C3_collides_symmetric (A B : Shapes.PShape) :
    A.collides B ↔ B.collides A := by
  cases A with
  | circ c =>
    cases B with
    | circ o => exact circle_collides_comm c o
    | rect r => exact Iff.rfl
  | rect r =>
    cases B with
    | circ c => exact Iff.rfl
    | rect r2 => exact rectangle_overlap_comm r r2

/-! ## C4 — SAT on axis-aligned rectangles -/

/-- C4: for the SAT test, two unrotated rectangles whose x-ranges or
y-ranges are disjoint never overlap, and any rectangle overlaps itself
(in particular two identical rectangles with the same center). -/
theorem C4_sat_disjoint_and_identical :
    (∀ r1 r2 : Shapes.Rectangle, r1.angle = 0 → r2.angle = 0 →
      0 < r1.width → 0 < r1.height → 0 < r2.width → 0 < r2.height →
      (r1.x + r1.width / 2 < r2.x - r2.width / 2 ∨
       r2.x + r2.width / 2 < r1.x - r1.width / 2 ∨
       r1.y + r1.height / 2 < r2.y - r2.height / 2 ∨
       r2.y + r2.height / 2 < r1.y - r1.height / 2) →
      ¬r1.rectangle_overlap r2) ∧
    (∀ r : Shapes.Rectangle, r.rectangle_overlap r) := by
  constructor
  · intro r1 r2 h1 h2 hw1 hh1 hw2 hh2 hdisj hov
    obtain ⟨hc10, hc11, hc12, hc13⟩ := corners_axis_aligned r1 h1
    obtain ⟨hc20, hc21, hc22, hc23⟩ := corners_axis_aligned r2 h2
    rcases hdisj with hd | hd | hd | hd
    · -- r1 to the left of r2: the axis normal to r1's right edge separates
      have hax : Shapes.axisOf r1.corner1 r1.corner2 = (-r1.height, 0) := by
        rw [hc11, hc12]; simp [Shapes.axisOf, Prod.ext_iff]
      have hlen : Shapes.hypot (Shapes.axisOf r1.corner1 r1.corner2).1
          (Shapes.axisOf r1.corner1 r1.corner2).2 = r1.height := by
        rw [hax]; unfold Shapes.hypot
        rw [show (-r1.height) ^ 2 + (0 : ℝ) ^ 2 = r1.height ^ 2 by ring]
        exact Real.sqrt_sq hh1.le
      have hnorm : Shapes.normAxis (Shapes.axisOf r1.corner1 r1.corner2) = (-1, 0) := by
        unfold Shapes.normAxis
        rw [hlen, hax]
        simp [Prod.ext_iff, neg_div, div_self (ne_of_gt hh1)]
      refine hov (Shapes.axisOf r1.corner1 r1.corner2)
        (List.mem_append.mpr (Or.inl (by simp [Shapes.Rectangle.get_axes])))
        (by rw [hlen]; exact ne_of_gt hh1) ?_
      rw [hnorm]
      refine Or.inr ?_
      unfold Shapes.Rectangle.projMax Shapes.Rectangle.projMin Shapes.dotAx
      rw [hc10, hc11, hc12, hc13, hc20, hc21, hc22, hc23]
      simp only [max_lt_iff, lt_min_iff]
      norm_num
      repeat' apply And.intro
      all_goals linarith
    · -- r2 to the left of r1
      have hax : Shapes.axisOf r1.corner1 r1.corner2 = (-r1.height, 0) := by
        rw [hc11, hc12]; simp [Shapes.axisOf, Prod.ext_iff]
      have hlen : Shapes.hypot (Shapes.axisOf r1.corner1 r1.corner2).1
          (Shapes.axisOf r1.corner1 r1.corner2).2 = r1.height := by
        rw [hax]; unfold Shapes.hypot
        rw [show (-r1.height) ^ 2 + (0 : ℝ) ^ 2 = r1.height ^ 2 by ring]
        exact Real.sqrt_sq hh1.le
      have hnorm : Shapes.normAxis (Shapes.axisOf r1.corner1 r1.corner2) = (-1, 0) := by
        unfold Shapes.normAxis
        rw [hlen, hax]
        simp [Prod.ext_iff, neg_div, div_self (ne_of_gt hh1)]
      refine hov (Shapes.axisOf r1.corner1 r1.corner2)
        (List.mem_append.mpr (Or.inl (by simp [Shapes.Rectangle.get_axes])))
        (by rw [hlen]; exact ne_of_gt hh1) ?_
      rw [hnorm]
      refine Or.inl ?_
      unfold Shapes.Rectangle.projMax Shapes.Rectangle.projMin Shapes.dotAx
      rw [hc10, hc11, hc12, hc13, hc20, hc21, hc22, hc23]
      simp only [max_lt_iff, lt_min_iff]
      norm_num
      repeat' apply And.intro
      all_goals linarith
    · -- r1 below r2: the axis normal to r1's bottom edge separates
      have hax : Shapes.axisOf r1.corner0 r1.corner1 = (0, r1.width) := by
        rw [hc10, hc11]; simp [Shapes.axisOf, Prod.ext_iff]
      have hlen : Shapes.hypot (Shapes.axisOf r1.corner0 r1.corner1).1
          (Shapes.axisOf r1.corner0 r1.corner1).2 = r1.width := by
        rw [hax]; unfold Shapes.hypot
        rw [show (0 : ℝ) ^ 2 + r1.width ^ 2 = r1.width ^ 2 by ring]
        exact Real.sqrt_sq hw1.le
      have hnorm : Shapes.normAxis (Shapes.axisOf r1.corner0 r1.corner1) = (0, 1) := by
        unfold Shapes.normAxis
        rw [hlen, hax]
        simp [Prod.ext_iff, div_self (ne_of_gt hw1)]
      refine hov (Shapes.axisOf r1.corner0 r1.corner1)
        (List.mem_append.mpr (Or.inl (by simp [Shapes.Rectangle.get_axes])))
        (by rw [hlen]; exact ne_of_gt hw1) ?_
      rw [hnorm]
      refine Or.inl ?_
      unfold Shapes.Rectangle.projMax Shapes.Rectangle.projMin Shapes.dotAx
      rw [hc10, hc11, hc12, hc13, hc20, hc21, hc22, hc23]
      simp only [max_lt_iff, lt_min_iff]
      norm_num
      repeat' apply And.intro
      all_goals linarith
    · -- r2 below r1
      have hax : Shapes.axisOf r1.corner0 r1.corner1 = (0, r1.width) := by
        rw [hc10, hc11]; simp [Shapes.axisOf, Prod.ext_iff]
      have hlen : Shapes.hypot (Shapes.axisOf r1.corner0 r1.corner1).1
          (Shapes.axisOf r1.corner0 r1.corner1).2 = r1.width := by
        rw [hax]; unfold Shapes.hypot
        rw [show (0 : ℝ) ^ 2 + r1.width ^ 2 = r1.width ^ 2 by ring]
        exact Real.sqrt_sq hw1.le
      have hnorm : Shapes.normAxis (Shapes.axisOf r1.corner0 r1.corner1) = (0, 1) := by
        unfold Shapes.normAxis
        rw [hlen, hax]
        simp [Prod.ext_iff, div_self (ne_of_gt hw1)]
      refine hov (Shapes.axisOf r1.corner0 r1.corner1)
        (List.mem_append.mpr (Or.inl (by simp [Shapes.Rectangle.get_axes])))
        (by rw [hlen]; exact ne_of_gt hw1) ?_
      rw [hnorm]
      refine Or.inr ?_
      unfold Shapes.Rectangle.projMax Shapes.Rectangle.projMin Shapes.dotAx
      rw [hc10, hc11, hc12, hc13, hc20, hc21, hc22, hc23]
      simp only [max_lt_iff, lt_min_iff]
      norm_num
      repeat' apply And.intro
      all_goals linarith
  · intro r ax hmem hlen hsep
    rcases hsep with hs | hs <;>
      exact absurd hs (not_lt.mpr (projMin_le_projMax r _))

/-- Two separated unit squares for the first part of the C4 witness. -/
def c4Left : Shapes.Rectangle := ⟨1, 1, 0, 0, 0⟩

/-- The right square of the C4 witness. -/
def c4Right : Shapes.Rectangle := ⟨1, 1, 5, 0, 0⟩

/-- A rotated rectangle for the identical-overlap part of the C4 witness. -/
def c4Same : Shapes.Rectangle := ⟨2, 3, 1, 1, 30⟩

/-- Witness for C4 on concrete rectangles. -/
theorem C4_sat_disjoint_and_identical_witness :
    ¬c4Left.rectangle_overlap c4Right ∧ c4Same.rectangle_overlap c4Same :=
  ⟨C4_sat_disjoint_and_identical.1 c4Left c4Right rfl rfl
      (by norm_num [c4Left]) (by norm_num [c4Left])
      (by norm_num [c4Right]) (by norm_num [c4Right])
      (Or.inl (by norm_num [c4Left, c4Right])),
   C4_sat_disjoint_and_identical.2 c4Same⟩

/-! ## C7 — zone classification -/

/-- C7: `_get_zone` is exactly the first-match scan of the zone table in
descending priority order with inclusive bounds and `NONE` fallback; the
table priorities strictly descend; and at the concrete point `(7, 0.5)`,
contained in both the target-berm zone (priority 5) and the construction
zone (priority 4), the higher-priority zone wins. -/
theorem C7_zone_priority_classification :
    (∀ p : PyPhys.Vec2, LunaEnv.get_zone p = LunaEnv.classifySpec LunaEnv.orderedZones p) ∧
    List.Chain' (fun a b => b.priority < a.priority) LunaEnv.orderedZones ∧
    LunaEnv.inZone ⟨7, 0.5⟩ ⟨.TARGET_BERM, LunaEnv.ZONE_TARGET_BERM, 5⟩ ∧
    LunaEnv.inZone ⟨7, 0.5⟩ ⟨.CONSTRUCTION, LunaEnv.ZONE_CONSTRUCTION, 4⟩ ∧
    LunaEnv.get_zone ⟨7, 0.5⟩ = .TARGET_BERM := by
  refine ⟨?_, ?_, ?_, ?_, ?_⟩
  · intro p
    simp only [LunaEnv.get_zone, LunaEnv.classifySpec, LunaEnv.orderedZones, LunaEnv.inZone]
  · simp [LunaEnv.orderedZones]
  · norm_num [LunaEnv.inZone, LunaEnv.point_in_bounds, LunaEnv.ZONE_TARGET_BERM]
  · norm_num [LunaEnv.inZone, LunaEnv.point_in_bounds, LunaEnv.ZONE_CONSTRUCTION]
  · norm_num [LunaEnv.get_zone, LunaEnv.point_in_bounds, LunaEnv.ZONE_TARGET_BERM]

/-! ## C8 — obstacle placement -/

/-- A committed candidate preserves the placement invariant of
`Environment.create_obstacle`. -/
lemma create_obstacle_sound :
    ∀ tape placed res tape' : List Shapes.Circle,
      EnvPy.create_obstacle tape placed = some (res, tape') →
      EnvPy.pairwise_ok placed → EnvPy.zones_ok placed →
      EnvPy.pairwise_ok res ∧ EnvPy.zones_ok res := by
  intro tape
  induction tape with
  | nil => intro placed res tape' h; simp [EnvPy.create_obstacle] at h
  | cons c rest ih =>
    intro placed res tape' h hp hz
    rw [EnvPy.create_obstacle] at h
    by_cases hok : EnvPy.obstacle_ok placed c
    · rw [if_pos hok] at h
      have hres : res = placed ++ [c] := by
        have := (Option.some.injEq _ _).mp h
        exact (Prod.mk.injEq _ _ _ _ ▸ this).1.symm
      subst hres
      constructor
      · rw [EnvPy.pairwise_ok, List.pairwise_append]
        refine ⟨hp, by simp, ?_⟩
        intro a ha b hb
        have hbc : b = c := by simpa using hb
        subst hbc
        exact fun hcol => hok.1 a ha ((circle_collides_comm a b).mp hcol)
      · intro o ho
        rcases List.mem_append.mp ho with h1 | h2
        · exact hz o h1
        · have : o = c := by simpa using h2
          subst this
          exact ⟨hok.2.1, hok.2.2.1, hok.2.2.2⟩
    · rw [if_neg hok] at h
      exact ih placed res tape' h hp hz

/-- The placement loop preserves the invariant. -/
lemma place_many_sound :
    ∀ (n : ℕ) (tape placed res tape' : List Shapes.Circle),
      EnvPy.place_many n tape placed = some (res, tape') →
      EnvPy.pairwise_ok placed → EnvPy.zones_ok placed →
      EnvPy.pairwise_ok res ∧ EnvPy.zones_ok res := by
  intro n
  induction n with
  | zero =>
    intro tape placed res tape' h hp hz
    have hres : res = placed := by
      have := (Option.some.injEq _ _).mp h
      exact (Prod.mk.injEq _ _ _ _ ▸ this).1.symm
    subst hres
    exact ⟨hp, hz⟩
  | succ n ih =>
    intro tape placed res tape' h hp hz
    rw [EnvPy.place_many] at h
    cases hco : EnvPy.create_obstacle tape placed with
    | none => rw [hco] at h; simp at h
    | some pr =>
      obtain ⟨placed', tape''⟩ := pr
      rw [hco] at h
      have hinv := create_obstacle_sound tape placed placed' tape'' hco hp hz
      exact ih tape'' placed' res tape' h hinv.1 hinv.2

/-- C8 (amended): every obstacle set committed by the rejection-sampling
`reset_arena` of environment.py is pairwise non-colliding and clear of
all protected zones, for any candidate stream and any obstacle count. -/
theorem C8_placement_invariant (n : ℕ) (tape res tape' : List Shapes.Circle)
    (h : EnvPy.reset_arena n tape = some (res, tape')) :
    EnvPy.pairwise_ok res ∧ EnvPy.zones_ok res :=
  place_many_sound n tape [] res tape' h (by simp [EnvPy.pairwise_ok])
    (by simp [EnvPy.zones_ok])

/-- Witness for C8 (amended) on the empty placement. -/
theorem C8_placement_invariant_witness :
    EnvPy.pairwise_ok [] ∧ EnvPy.zones_ok [] :=
  C8_placement_invariant 0 [] [] [] rfl

/-- C8 counterexample: the `reset()` of lunabotics_env.py spawns obstacle
circles straight from the random draws with no rejection test, so a draw
that is admissible for the code (both positions inside the obstacle zone,
radii inside the rock range) can produce two overlapping obstacles. -/
theorem C8_counterexample_luna_reset_overlap :
    LunaEnv.spawn_obstacles [(⟨4, 4⟩, 0.15), (⟨4, 4⟩, 0.15)] =
      [⟨⟨4, 4⟩, 0.15, true⟩, ⟨⟨4, 4⟩, 0.15, true⟩] ∧
    LunaEnv.circlesOverlap ⟨⟨4, 4⟩, 0.15, true⟩ ⟨⟨4, 4⟩, 0.15, true⟩ ∧
    LunaEnv.point_in_bounds 4 4 LunaEnv.ZONE_OBSTACLE.1 LunaEnv.ZONE_OBSTACLE.2.1
      LunaEnv.ZONE_OBSTACLE.2.2.1 LunaEnv.ZONE_OBSTACLE.2.2.2 ∧
    (0.15 : ℝ) ∈ Set.Icc (0.15 : ℝ) 0.2 := by
  refine ⟨rfl, ?_, ?_, ?_⟩
  · unfold LunaEnv.circlesOverlap
    norm_num
  · norm_num [LunaEnv.point_in_bounds, LunaEnv.ZONE_OBSTACLE]
  · norm_num

/-! ## C6 — wall-collision resolution -/

/-- Every corner of the body lies inside the `[0, W] × [0, H]` arena. -/
def PyPhys.allCornersInBounds (W H : ℝ) (b : PyPhys.RigidBody) : Prop :=
  ∀ p ∈ b.get_corners, 0 ≤ p.x ∧ p.x ≤ W ∧ 0 ≤ p.y ∧ p.y ≤ H

/-- The x-plane wall pass only touches the x components. -/
lemma wallX_fields (W : ℝ) (b : PyPhys.RigidBody) :
    (PyPhys.wallX W b).position.y = b.position.y ∧ (PyPhys.wallX W b).width = b.width ∧
    (PyPhys.wallX W b).height = b.height ∧ (PyPhys.wallX W b).angle = b.angle := by
  unfold PyPhys.wallX
  split_ifs <;> exact ⟨rfl, rfl, rfl, rfl⟩

/-- The y-plane wall pass only touches the y components. -/
lemma wallY_fields (H : ℝ) (b : PyPhys.RigidBody) :
    (PyPhys.wallY H b).position.x = b.position.x ∧ (PyPhys.wallY H b).width = b.width ∧
    (PyPhys.wallY H b).height = b.height ∧ (PyPhys.wallY H b).angle = b.angle := by
  unfold PyPhys.wallY
  split_ifs <;> exact ⟨rfl, rfl, rfl, rfl⟩

/-- After the x-plane pass the center's x component keeps the rectangle's
axis-aligned x extent inside `[0, W]` (for a body that fits the arena). -/
lemma wallX_x_bounds (W : ℝ) (b : PyPhys.RigidBody) (hw : 0 < b.width) (hW : b.width ≤ W) :
    b.width / 2 ≤ (PyPhys.wallX W b).position.x ∧
    (PyPhys.wallX W b).position.x ≤ W - b.width / 2 := by
  unfold PyPhys.wallX
  split_ifs with h1 h2 <;> refine ⟨?_, ?_⟩ <;> (try simp) <;> linarith

/-- After the y-plane pass the center's y component keeps the rectangle's
axis-aligned y extent inside `[0, H]`. -/
lemma wallY_y_bounds (H : ℝ) (b : PyPhys.RigidBody) (hh : 0 < b.height) (hH : b.height ≤ H) :
    b.height / 2 ≤ (PyPhys.wallY H b).position.y ∧
    (PyPhys.wallY H b).position.y ≤ H - b.height / 2 := by
  unfold PyPhys.wallY
  split_ifs with h1 h2 <;> refine ⟨?_, ?_⟩ <;> (try simp) <;> linarith

/-- Corners of an unrotated body. -/
lemma cornerAt_angle_zero (b : PyPhys.RigidBody) (h : b.angle = 0) (cx cy : ℝ) :
    b.cornerAt cx cy = ⟨cx + b.position.x, cy + b.position.y⟩ := by
  simp [PyPhys.RigidBody.cornerAt, h]

/-- C6 (amended): `_check_collisions` resolves wall contact by clamping
the center against the axis-aligned half extents (not against the actual
corners) and reflecting the velocity component; for an unrotated body
whose width and height fit inside the arena this leaves every corner
inside `[0, W] × [0, H]`. -/
theorem C6_walls_unrotated_corners_in_bounds (W H : ℝ) (b : PyPhys.RigidBody)
    (hangle : b.angle = 0) (hw : 0 < b.width) (hW : b.width ≤ W)
    (hh : 0 < b.height) (hH : b.height ≤ H) :
    PyPhys.allCornersInBounds W H (PyPhys.resolveWalls W H b) := by
  obtain ⟨hbx1, hbx2⟩ := wallX_x_bounds W b hw hW
  obtain ⟨hxy, hxw, hxh, hxa⟩ := wallX_fields W b
  obtain ⟨hby1, hby2⟩ := wallY_y_bounds H (PyPhys.wallX W b) (by rw [hxh]; exact hh)
    (by rw [hxh]; exact hH)
  obtain ⟨hyx, hyw, hyh, hya⟩ := wallY_fields H (PyPhys.wallX W b)
  set b2 := PyPhys.resolveWalls W H b with hb2
  have hw2 : b2.width = b.width := by rw [hb2, PyPhys.resolveWalls, hyw, hxw]
  have hh2 : b2.height = b.height := by rw [hb2, PyPhys.resolveWalls, hyh, hxh]
  have ha2 : b2.angle = 0 := by rw [hb2, PyPhys.resolveWalls, hya, hxa, hangle]
  have hpx1 : b.width / 2 ≤ b2.position.x := by
    rw [hb2, PyPhys.resolveWalls, hyx]; exact hbx1
  have hpx2 : b2.position.x ≤ W - b.width / 2 := by
    rw [hb2, PyPhys.resolveWalls, hyx]; exact hbx2
  have hpy1 : b.height / 2 ≤ b2.position.y := by
    rw [hb2, PyPhys.resolveWalls]
    calc b.height / 2 = (PyPhys.wallX W b).height / 2 := by rw [hxh]
    _ ≤ _ := hby1
  have hpy2 : b2.position.y ≤ H - b.height / 2 := by
    rw [hb2, PyPhys.resolveWalls]
    calc (PyPhys.wallY H (PyPhys.wallX W b)).position.y
        ≤ H - (PyPhys.wallX W b).height / 2 := hby2
    _ = H - b.height / 2 := by rw [hxh]
  intro p hp
  simp only [PyPhys.RigidBody.get_corners, List.mem_cons, List.mem_singleton,
    List.not_mem_nil, or_false] at hp
  rcases hp with rfl | rfl | rfl | rfl <;>
    rw [cornerAt_angle_zero b2 ha2, hw2, hh2] <;>
    exact ⟨by linarith, by linarith, by linarith, by linarith⟩

/-- An unrotated body overlapping the left and top walls, used to witness
C6 (amended). -/
def c6Flat : PyPhys.RigidBody :=
  { position := ⟨0.4, 9.5⟩, velocity := ⟨-1, 2⟩, angle := 0,
    angular_velocity := 0, width := 2, height := 2,
    is_static := false, friction := 0.5, restitution := 0.3 }

/-- Witness for C6 (amended) on a concrete clamped body. -/
theorem C6_walls_unrotated_corners_in_bounds_witness :
    PyPhys.allCornersInBounds 10 10 (PyPhys.resolveWalls 10 10 c6Flat) :=
  C6_walls_unrotated_corners_in_bounds 10 10 c6Flat rfl (by norm_num [c6Flat])
    (by norm_num [c6Flat]) (by norm_num [c6Flat]) (by norm_num [c6Flat])

/-- A body rotated by 90 degrees whose actual corners stick out of the
left wall while its axis-aligned extents are well inside the arena. -/
def c6Rot : PyPhys.RigidBody :=
  { position := ⟨1.5, 5⟩, velocity := ⟨0, 0⟩, angle := Real.pi / 2,
    angular_velocity := 0, width := 2, height := 4,
    is_static := false, friction := 0.5, restitution := 0.3 }

/-- C6 counterexample: for a rotated body the wall pass of
`_check_collisions` does not fire (it tests only the unrotated half
extents against the planes) and a corner of the actual rectangle remains
outside the arena after resolution — the claimed corner test and corner
postcondition both fail. -/
theorem C6_counterexample_rotated_corner_outside :
    PyPhys.resolveWalls 10 10 c6Rot = c6Rot ∧
    ¬PyPhys.allCornersInBounds 10 10 (PyPhys.resolveWalls 10 10 c6Rot) := by
  have h1 : PyPhys.wallX 10 c6Rot = c6Rot := by
    unfold PyPhys.wallX
    split_ifs with h h2
    · exact absurd h (by norm_num [c6Rot])
    · exact absurd h2 (by norm_num [c6Rot])
    · rfl
  have h2 : PyPhys.wallY 10 c6Rot = c6Rot := by
    unfold PyPhys.wallY
    split_ifs with h h2
    · exact absurd h (by norm_num [c6Rot])
    · exact absurd h2 (by norm_num [c6Rot])
    · rfl
  have hres : PyPhys.resolveWalls 10 10 c6Rot = c6Rot := by
    rw [PyPhys.resolveWalls, h1, h2]
  refine ⟨hres, ?_⟩
  rw [hres]
  intro hall
  have hc : c6Rot.cornerAt (c6Rot.width / 2) (c6Rot.height / 2) ∈ c6Rot.get_corners := by
    simp [PyPhys.RigidBody.get_corners]
  have hx := (hall _ hc).1
  rw [PyPhys.RigidBody.cornerAt] at hx
  norm_num [c6Rot, Real.cos_pi_div_two, Real.sin_pi_div_two] at hx

/-! ## C2 — the obstacle-collision branch of the engine step -/

/-- Scaling a vector of positive length `M` to length `M + ov` by adding
`ov` along its normalization. -/
lemma sqrt_pushout (px py qx qy r mx : ℝ)
    (hm : 0 < Real.sqrt ((px - qx) ^ 2 + (py - qy) ^ 2))
    (hnn : 0 ≤ r + mx) :
    Real.sqrt
      ((px + (px - qx) / Real.sqrt ((px - qx) ^ 2 + (py - qy) ^ 2) *
          (r + mx - Real.sqrt ((px - qx) ^ 2 + (py - qy) ^ 2)) - qx) ^ 2 +
       (py + (py - qy) / Real.sqrt ((px - qx) ^ 2 + (py - qy) ^ 2) *
          (r + mx - Real.sqrt ((px - qx) ^ 2 + (py - qy) ^ 2)) - qy) ^ 2) = r + mx := by
  set M := Real.sqrt ((px - qx) ^ 2 + (py - qy) ^ 2) with hM
  have hMne : M ≠ 0 := ne_of_gt hm
  have h1 : px + (px - qx) / M * (r + mx - M) - qx = (px - qx) * ((r + mx) / M) := by
    field_simp
    ring
  have h2 : py + (py - qy) / M * (r + mx - M) - qy = (py - qy) * ((r + mx) / M) := by
    field_simp
    ring
  rw [h1, h2,
    show ((px - qx) * ((r + mx) / M)) ^ 2 + ((py - qy) * ((r + mx) / M)) ^ 2 =
      ((r + mx) / M) ^ 2 * ((px - qx) ^ 2 + (py - qy) ^ 2) from by ring,
    Real.sqrt_mul (sq_nonneg _), Real.sqrt_sq (div_nonneg hnn hm.le), ← hM,
    div_mul_cancel₀ _ hMne]

/-- C2 (amended): when the obstacle branch of `_check_collisions` detects
a rect-vs-circle collision with positive overlap (and a nonzero center
offset), it does modify the body: the center is pushed out along the
normalized center difference to distance `radius + max(w/2, h/2)` from
the circle center, and the velocity is reflected and scaled by the
restitution coefficient. Collisions are surfaced to the driver separately
through `get_circle_collisions`. -/
theorem C2_obstacle_branch_pushout (b : PyPhys.RigidBody) (c : PyPhys.PCircle)
    (hcol : PyPhys.check_rect_circle_collision b c)
    (hmag : 0 < (b.position.sub c.position).magnitude)
    (hov : 0 < c.radius + max (b.width / 2) (b.height / 2) -
      (b.position.sub c.position).magnitude) :
    ((PyPhys.resolveCircle b c).position.sub c.position).magnitude =
      c.radius + max (b.width / 2) (b.height / 2) ∧
    (PyPhys.resolveCircle b c).velocity = b.velocity.smul (-b.restitution) := by
  have heq : PyPhys.resolveCircle b c =
      { b with
        position := b.position.add
          (((b.position.sub c.position).normalize).smul
            (c.radius + max (b.width / 2) (b.height / 2) -
              (b.position.sub c.position).magnitude)),
        velocity := b.velocity.smul (-b.restitution) } := by
    rw [PyPhys.resolveCircle, if_pos hcol, if_pos hov]
  have hm' : 0 < Real.sqrt ((b.position.x - c.position.x) ^ 2 +
      (b.position.y - c.position.y) ^ 2) := by
    simpa [PyPhys.Vec2.sub, PyPhys.Vec2.magnitude] using hmag
  have hnn : 0 ≤ c.radius + max (b.width / 2) (b.height / 2) := by
    have h0 : 0 ≤ (b.position.sub c.position).magnitude := le_of_lt hmag
    linarith
  refine ⟨?_, by rw [heq]⟩
  rw [heq]
  simp only [PyPhys.Vec2.normalize]
  rw [if_neg (ne_of_gt hmag)]
  simp only [PyPhys.Vec2.add, PyPhys.Vec2.sub, PyPhys.Vec2.smul, PyPhys.Vec2.magnitude]
  exact sqrt_pushout b.position.x b.position.y c.position.x c.position.y c.radius
    (max (b.width / 2) (b.height / 2)) hm' hnn

/-- The moving rover body of the C2 scenario. -/
def c2Body : PyPhys.RigidBody :=
  { position := ⟨5, 5⟩, velocity := ⟨1, 0⟩, angle := 0, angular_velocity := 0,
    width := 1, height := 1, is_static := false, friction := 0.5, restitution := 0.3 }

/-- The static obstacle circle of the C2 scenario. -/
def c2Circ : PyPhys.PCircle := ⟨⟨5.6, 5⟩, 0.5, true⟩

/-- The engine world of the C2 scenario. -/
def c2Engine : PyPhys.PhysicsEngine := ⟨10, 10, [c2Body], [c2Circ]⟩

/-- The C2 scenario's center offset has magnitude `0.6`. -/
lemma c2_mag : (c2Body.position.sub c2Circ.position).magnitude = 0.6 := by
  simp only [PyPhys.Vec2.sub, PyPhys.Vec2.magnitude, c2Body, c2Circ]
  rw [show ((5 : ℝ) - 5.6) ^ 2 + ((5 : ℝ) - 5) ^ 2 = (0.6 : ℝ) ^ 2 by norm_num]
  exact Real.sqrt_sq (by norm_num)

/-- The C2 scenario is a detected collision. -/
lemma c2_col : PyPhys.check_rect_circle_collision c2Body c2Circ := by
  unfold PyPhys.check_rect_circle_collision
  rw [Real.sqrt_lt' (by norm_num [c2Circ])]
  norm_num [c2Body, c2Circ, min_def, max_def]

/-- The C2 scenario has positive overlap. -/
lemma c2_ov : 0 < c2Circ.radius + max (c2Body.width / 2) (c2Body.height / 2) -
    (c2Body.position.sub c2Circ.position).magnitude := by
  rw [c2_mag]
  norm_num [c2Body, c2Circ, max_def]

/-- Witness for C2 (amended) on the concrete scenario. -/
theorem C2_obstacle_branch_pushout_witness :
    ((PyPhys.resolveCircle c2Body c2Circ).position.sub c2Circ.position).magnitude =
      c2Circ.radius + max (c2Body.width / 2) (c2Body.height / 2) ∧
    (PyPhys.resolveCircle c2Body c2Circ).velocity = c2Body.velocity.smul (-c2Body.restitution) :=
  C2_obstacle_branch_pushout c2Body c2Circ c2_col
    (by rw [c2_mag]; norm_num) c2_ov

/-- The resolved body of the C2 scenario, computed explicitly. -/
lemma c2_resolved : PyPhys.resolveCircle c2Body c2Circ =
    { c2Body with position := ⟨4.6, 5⟩, velocity := ⟨-0.3, 0⟩ } := by
  have hn : (c2Body.position.sub c2Circ.position).normalize = ⟨-1, 0⟩ := by
    rw [PyPhys.Vec2.normalize, if_neg (by rw [c2_mag]; norm_num)]
    rw [c2_mag]
    simp only [PyPhys.Vec2.sub, c2Body, c2Circ]
    norm_num
  rw [PyPhys.resolveCircle, if_pos c2_col, if_pos c2_ov, hn, c2_mag]
  simp only [PyPhys.Vec2.add, PyPhys.Vec2.smul, c2Body, c2Circ]
  norm_num [max_def]

/-- C2 counterexample: in the concrete scenario the obstacle-collision
branch of the engine step changes both the position and the velocity of
the rover body (there is a push-out), so the branch does not leave the
rigid body unchanged. -/
theorem C2_counterexample_branch_modifies_body :
    PyPhys.check_rect_circle_collision c2Body c2Circ ∧
    (PyPhys.resolveCircle c2Body c2Circ).position ≠ c2Body.position ∧
    (PyPhys.resolveCircle c2Body c2Circ).velocity ≠ c2Body.velocity ∧
    (PyPhys.check_collisions c2Engine).bodies ≠ c2Engine.bodies := by
  have hwx : PyPhys.wallX 10 c2Body = c2Body := by
    unfold PyPhys.wallX
    split_ifs with h h2
    · exact absurd h (by norm_num [c2Body])
    · exact absurd h2 (by norm_num [c2Body])
    · rfl
  have hwy : PyPhys.wallY 10 c2Body = c2Body := by
    unfold PyPhys.wallY
    split_ifs with h h2
    · exact absurd h (by norm_num [c2Body])
    · exact absurd h2 (by norm_num [c2Body])
    · rfl
  refine ⟨c2_col, ?_, ?_, ?_⟩
  · rw [c2_resolved]
    simp only [c2Body]
    intro h
    have := congrArg PyPhys.Vec2.x h
    norm_num at this
  · rw [c2_resolved]
    simp only [c2Body]
    intro h
    have := congrArg PyPhys.Vec2.x h
    norm_num at this
  · have hbodies : (PyPhys.check_collisions c2Engine).bodies =
        [PyPhys.resolveCircle c2Body c2Circ] := by
      simp only [PyPhys.check_collisions, c2Engine, List.map_cons, List.map_nil]
      rw [show c2Body.is_static = false from rfl]
      simp only [Bool.false_eq_true, if_false]
      rw [show PyPhys.resolveWalls 10 10 c2Body = c2Body from by
        rw [PyPhys.resolveWalls, hwx, hwy]]
      rfl
    rw [hbodies, c2_resolved]
    simp only [c2Engine]
    intro h
    have h1 := List.head_eq_of_cons_eq h
    have := congrArg (fun b => b.position.x) h1
    simp only [c2Body] at this
    norm_num at this

/-! ## C5 — rectangle-vs-circle collision test -/

/-- The corner of a physics body as a coordinate pair. -/
def PyPhys.Vec2.pair (v : PyPhys.Vec2) : ℝ × ℝ := (v.x, v.y)

/-- Modelled from the spec: the claimed characterization of the
rect-vs-circle test — the circle center lies inside the quadrilateral
`c0 c1 c2 c3` by the ray-casting parity test, or the minimum of the four
point-to-segment distances (parametric projection clamped to `[0,1]`)
from the center to the edges is at most the radius. -/
def claimedRectCircleHit (c0 c1 c2 c3 center : ℝ × ℝ) (radius : ℝ) : Prop :=
  Shapes.raycastOdd center c0 c1 c2 c3 ∨
  min (min (min (Shapes.distance_point_to_segment center c0 c1)
        (Shapes.distance_point_to_segment center c1 c2))
      (Shapes.distance_point_to_segment center c2 c3))
    (Shapes.distance_point_to_segment center c3 c0) ≤ radius

/-- C5 (amended): shapes.py `Rectangle.circle_overlap` satisfies the
claimed characterization for every rectangle pose (any center and any
orientation). -/
theorem C5_circle_overlap_characterization (r : Shapes.Rectangle) (c : Shapes.Circle) :
    r.circle_overlap c ↔
      claimedRectCircleHit r.corner0 r.corner1 r.corner2 r.corner3 (c.x, c.y) c.radius := by
  unfold Shapes.Rectangle.circle_overlap claimedRectCircleHit Shapes.Rectangle.contains
  rw [min_le_iff, min_le_iff, min_le_iff]
  tauto

/-- The clamped projection parameter is nonnegative. -/
lemma clamp01_nonneg (t : ℝ) : 0 ≤ Shapes.clamp01 t := le_max_left 0 _

/-- The clamped projection parameter is at most one. -/
lemma clamp01_le_one (t : ℝ) : Shapes.clamp01 t ≤ 1 :=
  max_le (by norm_num) (min_le_left 1 t)

/-- The rotated body of the C5 scenario: a 4 × 2 rectangle turned by 90
degrees, so it actually occupies `[-1, 1] × [-2, 2]`. -/
def c5Rect : PyPhys.RigidBody :=
  { position := ⟨0, 0⟩, velocity := ⟨0, 0⟩, angle := Real.pi / 2, angular_velocity := 0,
    width := 4, height := 2, is_static := false, friction := 0.5, restitution := 0.3 }

/-- The probe circle of the C5 scenario, outside the actual rectangle but
inside its unrotated AABB. -/
def c5Circ : PyPhys.PCircle := ⟨⟨1.8, 0⟩, 0.1, true⟩

/-- C5 counterexample: `_check_rect_circle_collision` reports a collision
for the rotated body (it tests the unrotated AABB), while the claimed
ray-casting/edge-distance characterization over the body's actual four
corners rejects it — so the claim fails for that test on rotated
rectangles. -/
theorem C5_counterexample_aabb_test :
    PyPhys.check_rect_circle_collision c5Rect c5Circ ∧
    c5Rect.get_corners.map PyPhys.Vec2.pair = [(1, -2), (1, 2), (-1, 2), (-1, -2)] ∧
    ¬claimedRectCircleHit (1, -2) (1, 2) (-1, 2) (-1, -2) (1.8, 0) (0.1 : ℝ) := by
  refine ⟨?_, ?_, ?_⟩
  · unfold PyPhys.check_rect_circle_collision
    rw [Real.sqrt_lt' (by norm_num [c5Circ])]
    norm_num [c5Rect, c5Circ, min_def, max_def]
  · simp [PyPhys.RigidBody.get_corners, PyPhys.RigidBody.cornerAt, PyPhys.Vec2.pair,
      c5Rect, Real.cos_pi_div_two, Real.sin_pi_div_two]
    norm_num
  · have d0 : (0.1 : ℝ) <
        Shapes.distance_point_to_segment (1.8, 0) (1, -2) (1, 2) := by
      unfold Shapes.distance_point_to_segment Shapes.hypot
      rw [Real.lt_sqrt (by norm_num)]
      have h0 := clamp01_nonneg (Shapes.projT (1.8, 0) (1, -2) (1, 2))
      have h1 := clamp01_le_one (Shapes.projT (1.8, 0) (1, -2) (1, 2))
      set t := Shapes.clamp01 (Shapes.projT (1.8, 0) (1, -2) (1, 2)) with ht
      norm_num
      nlinarith [sq_nonneg (2 - 4 * t)]
    have d1 : (0.1 : ℝ) <
        Shapes.distance_point_to_segment (1.8, 0) (1, 2) (-1, 2) := by
      unfold Shapes.distance_point_to_segment Shapes.hypot
      rw [Real.lt_sqrt (by norm_num)]
      have h0 := clamp01_nonneg (Shapes.projT (1.8, 0) (1, 2) (-1, 2))
      have h1 := clamp01_le_one (Shapes.projT (1.8, 0) (1, 2) (-1, 2))
      set t := Shapes.clamp01 (Shapes.projT (1.8, 0) (1, 2) (-1, 2)) with ht
      norm_num
      nlinarith [sq_nonneg (0.8 + 2 * t)]
    have d2 : (0.1 : ℝ) <
        Shapes.distance_point_to_segment (1.8, 0) (-1, 2) (-1, -2) := by
      unfold Shapes.distance_point_to_segment Shapes.hypot
      rw [Real.lt_sqrt (by norm_num)]
      have h0 := clamp01_nonneg (Shapes.projT (1.8, 0) (-1, 2) (-1, -2))
      have h1 := clamp01_le_one (Shapes.projT (1.8, 0) (-1, 2) (-1, -2))
      set t := Shapes.clamp01 (Shapes.projT (1.8, 0) (-1, 2) (-1, -2)) with ht
      norm_num
      nlinarith [sq_nonneg (2 - 4 * t)]
    have d3 : (0.1 : ℝ) <
        Shapes.distance_point_to_segment (1.8, 0) (-1, -2) (1, -2) := by
      unfold Shapes.distance_point_to_segment Shapes.hypot
      rw [Real.lt_sqrt (by norm_num)]
      have h0 := clamp01_nonneg (Shapes.projT (1.8, 0) (-1, -2) (1, -2))
      have h1 := clamp01_le_one (Shapes.projT (1.8, 0) (-1, -2) (1, -2))
      set t := Shapes.clamp01 (Shapes.projT (1.8, 0) (-1, -2) (1, -2)) with ht
      norm_num
      nlinarith [sq_nonneg (2.8 - 2 * t)]
    rintro (hray | hmin)
    · revert hray
      norm_num [Shapes.raycastOdd, Xor', Shapes.edgeCross]
    · have hlt : (0.1 : ℝ) <
          min (min (min (Shapes.distance_point_to_segment (1.8, 0) (1, -2) (1, 2))
                (Shapes.distance_point_to_segment (1.8, 0) (1, 2) (-1, 2)))
              (Shapes.distance_point_to_segment (1.8, 0) (-1, 2) (-1, -2)))
            (Shapes.distance_point_to_segment (1.8, 0) (-1, -2) (1, -2)) := by
        simp only [lt_min_iff]
        exact ⟨⟨⟨d0, d1⟩, d2⟩, d3⟩
      linarith

end



